import Mathlib

/-!
Shallow embedding of the guided camera-calibration capture controller of
online-CamCalib: the pose record and pose-novelty evaluator `getGuidance`,
the object-point grid `prepareObjectPoints`, the capture tick of
`Camera.draw` (src/models/camera.ts), the frame throttler `createTrigger`
(utils.ts), the hook capture loop `captureWithGuidance` (React hook), and
the calibration-trigger tick of the revised `Camera.draw` that feeds
`calibrateCamera`.  JS numbers are modelled as rationals; the operations
the code performs on them (subtraction, absolute value, max, comparison,
division by a nonzero constant) are exact on the inputs considered.
-/

namespace CamCalib

/-- The `Point` record of `src/models/camera.ts`: Euler angles in degrees
plus a distance, as produced by `analyzePose`. -/
structure Point where
  pitch : ℚ
  yaw : ℚ
  roll : ℚ
  distance : ℚ
deriving DecidableEq

/-- Guidance string returned when the maximal pitch difference is below
threshold: "请上下移动相机或棋盘格" (move the camera or board vertically). -/
def msgVertical : String := "请上下移动相机或棋盘格"

/-- Guidance string returned when the maximal yaw difference is below
threshold: "请左右移动相机或棋盘格" (move the camera or board horizontally). -/
def msgHorizontal : String := "请左右移动相机或棋盘格"

/-- Guidance string returned when the maximal roll difference is below
threshold: "请旋转棋盘格或相机" (rotate the board or camera). -/
def msgRotate : String := "请旋转棋盘格或相机"

/-- Guidance string returned on acceptance: "当前角度合适，继续采集!"
(current angle is suitable, keep capturing).  `Camera.draw` compares the
emitted tip against exactly this string to decide acceptance. -/
def msgOk : String := "当前角度合适，继续采集!"

/-- The three running maxima computed by the `for (const h of history)`
loop of `Camera.getGuidance`: maximal absolute pitch, yaw and roll
difference between the new angle and the accepted history, each starting
from 0 (so each is 0 on empty history). -/
def maxDiffs (newAngle : Point) (history : List Point) : ℚ × ℚ × ℚ :=
  history.foldl
    (fun m h =>
      (max m.1 |newAngle.pitch - h.pitch|,
       max m.2.1 |newAngle.yaw - h.yaw|,
       max m.2.2 |newAngle.roll - h.roll|))
    (0, 0, 0)

/-- `Camera.getGuidance` (src/models/camera.ts lines 160-175): with the
fixed threshold 10 degrees, checks the maximal pitch, then yaw, then roll
difference against the history and returns the first guidance message whose
axis is still below threshold, or the acceptance message. -/
def getGuidance (newAngle : Point) (history : List Point) : String :=
  if (maxDiffs newAngle history).1 < 10 then msgVertical
  else if (maxDiffs newAngle history).2.1 < 10 then msgHorizontal
  else if (maxDiffs newAngle history).2.2 < 10 then msgRotate
  else msgOk

/-- `Camera.prepareObjectPoints`: the nested loop `for i in [0,rowNum)`,
`for j in [0,colNum)` pushing `[j*squareSize, i*squareSize, 0]`, i.e. the
row-major object-point grid. -/
def prepareObjectPoints (rowNum colNum : Nat) (squareSize : ℚ) : List (List ℚ) :=
  (List.range rowNum).flatMap fun i =>
    (List.range colNum).map fun j =>
      [(j : ℚ) * squareSize, (i : ℚ) * squareSize, 0]

/-- The mutable capture state of a `Camera` instance in
`src/models/camera.ts`: accepted angle history, accumulated object-point
sets, accumulated (flat) image-point arrays, and the captured counter.
All four start empty / zero per the class field initializers. -/
structure CamState where
  anglesHist : List Point
  objectPoints : List (List (List ℚ))
  imagePoints : List (List ℚ)
  captured : Nat
deriving DecidableEq

/-- The initial capture state of a fresh `Camera` (class field
initializers: empty lists, `captured = 0`). -/
def initCamState : CamState :=
  { anglesHist := [], objectPoints := [], imagePoints := [], captured := 0 }

/-- The sample-accept block of `Camera.draw` (src/models/camera.ts lines
241-244): unconditionally pushes the configured object points, the flat
image-point data, the angles, and increments `captured`.  No length or
dimension validation of any kind is performed. -/
def acceptSample (s : CamState) (angles : Point) (objp : List (List ℚ))
    (corners : List ℚ) : CamState :=
  { s with
    objectPoints := s.objectPoints ++ [objp],
    imagePoints := s.imagePoints ++ [corners],
    anglesHist := s.anglesHist ++ [angles],
    captured := s.captured + 1 }

/-- One tick of `Camera.draw` (src/models/camera.ts lines 177-251), after
the external vision steps are abstracted into the tick event: `none` when
the video is not ready or no chessboard corners are found (no guidance, no
state change), `some (angles, corners)` when corners are found and
`solvePnP`/`analyzePose` produced the pose `angles` with flat corner data
`corners`.  The tip from `getGuidance` against the current history is
emitted in either case of acceptance; the sample is stored exactly when the
tip equals the acceptance message. -/
def drawTick (objp : List (List ℚ)) (s : CamState)
    (ev : Option (Point × List ℚ)) : CamState × Option String :=
  match ev with
  | none => (s, none)
  | some (angles, corners) =>
    let tip := getGuidance angles s.anglesHist
    if tip = msgOk then (acceptSample s angles objp corners, some tip)
    else (s, some tip)

/-- A sequence of `Camera.draw` ticks, returning the final state and the
guidance emitted on each tick (`none` on ticks with no detection). -/
def runTicks (objp : List (List ℚ)) (s : CamState) :
    List (Option (Point × List ℚ)) → CamState × List (Option String)
  | [] => (s, [])
  | ev :: evs =>
    let r := drawTick objp s ev
    let rest := runTicks objp r.1 evs
    (rest.1, r.2 :: rest.2)

/-- The four poses of the end-to-end scenario, fed one per allowed tick. -/
def scenarioPoses : List Point :=
  [⟨0, 0, 0, 1⟩, ⟨15, 0, 0, 1⟩, ⟨15, 15, 0, 1⟩, ⟨15, 15, 15, 1⟩]

/-- The scenario ticks: every tick detects corners and yields the next
scenario pose (the corner data is irrelevant to acceptance and guidance). -/
def scenarioEvents : List (Option (Point × List ℚ)) :=
  scenarioPoses.map fun p => some (p, [])

/-- The guidance outputs of running the end-to-end scenario (6x6 pattern,
square size 1) from a fresh camera state. -/
def scenarioOutputs : List (Option String) :=
  (runTicks (prepareObjectPoints 6 6 1) initCamState scenarioEvents).2

/-- Acceptance flags derived from emitted guidance: a tick accepted its
pose exactly when the emitted tip is the acceptance message, which is the
comparison `Camera.draw` itself performs. -/
def acceptFlags (outs : List (Option String)) : List Bool :=
  outs.map fun o => decide (o = some msgOk)

/-- One step of the closure returned by `createTrigger` (utils.ts lines
1-12): given the interval and the stored `lastTime`, a call at `now`
returns true and stores `now` when `now - lastTime >= interval`, and
returns false leaving the state unchanged otherwise. -/
def createTriggerStep (interval last now : ℚ) : Bool × ℚ :=
  if interval ≤ now - last then (true, now) else (false, last)

/-- The results of calling a trigger with stored state `last` at each
timestamp of `ts` in order (state threaded through the calls). -/
def runTrigger (interval last : ℚ) : List ℚ → List Bool
  | [] => []
  | t :: ts =>
    let r := createTriggerStep interval last t
    r.1 :: runTrigger interval r.2 ts

/-- `createTrigger fps` called at each timestamp of `ts`: interval is
`1000 / fps` and the stored `lastTime` starts at 0, per utils.ts. -/
def createTriggerRun (fps : ℚ) (ts : List ℚ) : List Bool :=
  runTrigger (1000 / fps) 0 ts

/-- The timestamps of the true-returning calls of a trigger run: a call at
`t` fires when `interval ≤ t - last`, and then becomes the new reference
point for later calls. -/
def fireTimes (interval last : ℚ) : List ℚ → List ℚ
  | [] => []
  | t :: ts =>
    if interval ≤ t - last then t :: fireTimes interval t ts
    else fireTimes interval last ts

/-- The fps stored by the `Camera` constructor: `this.fps = config.fps || 10`.
An absent field and the falsy number 0 both yield the default 10; every
other number, including a negative one, is stored as given.  No validation
is performed and construction never fails. -/
def cameraFps (cfgFps : Option ℚ) : ℚ :=
  match cfgFps with
  | none => 10
  | some f => if f = 0 then 10 else f

/-- One iteration of the `captureWithGuidance` loop body (React hook,
`useCalibrationWithGuidance`): a tick either grabs no frame, finds no
corners, or finds corners with a solved pose.  Only a found tick updates
the guidance state, and only an accepted tip appends to the local
accumulators and increments `captured`. -/
inductive HookEvent where
  | frameNull
  | notFound
  | found (angles : Point) (corners : List ℚ)
deriving DecidableEq

/-- The loop-local state of `captureWithGuidance`: `anglesHist`,
`objectPoints`, `imagePoints`, `captured` start empty / 0; `guidance` is
the React guidance state, initially null. -/
structure HookState where
  anglesHist : List Point
  objectPoints : List (List (List ℚ))
  imagePoints : List (List ℚ)
  captured : Nat
  guidance : Option String
deriving DecidableEq

/-- The state at entry of the `captureWithGuidance` loop. -/
def initHookState : HookState :=
  { anglesHist := [], objectPoints := [], imagePoints := [], captured := 0,
    guidance := none }

/-- One iteration of the `for (let captured = 0; captured < numImages;)`
loop of `captureWithGuidance`: null frames and missed detections change
nothing; a found pose is evaluated by `getGuidance` against the local
history, the tip is published, and on the acceptance tip the sample is
pushed and `captured` incremented. -/
def hookStep (objp : List (List ℚ)) (s : HookState) (ev : HookEvent) : HookState :=
  match ev with
  | .frameNull => s
  | .notFound => s
  | .found angles corners =>
    let tip := getGuidance angles s.anglesHist
    let s' := { s with guidance := some tip }
    if tip = msgOk then
      { s' with
        objectPoints := s'.objectPoints ++ [objp],
        imagePoints := s'.imagePoints ++ [corners],
        anglesHist := s'.anglesHist ++ [angles],
        captured := s'.captured + 1 }
    else s'

/-- Any number of iterations of the `captureWithGuidance` loop body. -/
def hookRun (objp : List (List ℚ)) (s : HookState) : List HookEvent → HookState
  | [] => s
  | ev :: evs => hookRun objp (hookStep objp s ev) evs

/-- The accumulator state of the revised `Camera` (the version whose
`draw` feeds `calibrateCamera`): the `objpointsMat` and `imgpointsMat`
MatVectors, modelled as the lists of point sets they hold. -/
structure CamV3State where
  objpoints : List (List (List ℚ))
  imgpoints : List (List ℚ)
deriving DecidableEq

/-- A recorded invocation of `calibrateCamera`: the full current
object-point sets, image-point sets, and the image size it is called
with. -/
structure CalibCall where
  objpoints : List (List (List ℚ))
  imgpoints : List (List ℚ)
  imageSize : Nat × Nat
deriving DecidableEq

/-- One tick of the revised `Camera.draw` (the calibration-trigger
version): on a found tick it pushes a clone of `objMat` onto
`objpointsMat` and the corner data onto `imgpointsMat`, then, when
`objpointsMat.size() >= 15`, invokes `calibrateCamera(gray.size())`, which
reads the full current `objpointsMat` and `imgpointsMat`.  The returned
option records that invocation.  Nothing is ever removed and the trigger
is not deduplicated. -/
def drawTickV3 (objMat : List (List ℚ)) (s : CamV3State)
    (ev : Option (List ℚ × (Nat × Nat))) : CamV3State × Option CalibCall :=
  match ev with
  | none => (s, none)
  | some (corners, size) =>
    let s' : CamV3State :=
      { objpoints := s.objpoints ++ [objMat], imgpoints := s.imgpoints ++ [corners] }
    if 15 ≤ s'.objpoints.length then
      (s', some { objpoints := s'.objpoints, imgpoints := s'.imgpoints, imageSize := size })
    else (s', none)

/-- A sequence of revised `Camera.draw` ticks, returning the final state
and the calibration invocation (if any) of each tick. -/
def runTicksV3 (objMat : List (List ℚ)) (s : CamV3State) :
    List (Option (List ℚ × (Nat × Nat))) → CamV3State × List (Option CalibCall)
  | [] => (s, [])
  | ev :: evs =>
    let r := drawTickV3 objMat s ev
    let rest := runTicksV3 objMat r.1 evs
    (rest.1, r.2 :: rest.2)

unseal Rat.add Rat.sub Rat.mul Rat.inv

/-- The four guidance messages are pairwise distinct; in particular none of
the three movement hints equals the acceptance message. -/
theorem msgVertical_ne_msgOk : msgVertical ≠ msgOk := by decide

/-- The horizontal hint is not the acceptance message. -/
theorem msgHorizontal_ne_msgOk : msgHorizontal ≠ msgOk := by decide

/-- The rotation hint is not the acceptance message. -/
theorem msgRotate_ne_msgOk : msgRotate ≠ msgOk := by decide

/-- On an empty history the three running maxima stay at their initial 0,
so `getGuidance` takes the first branch. -/
theorem getGuidance_nil (p : Point) : getGuidance p [] = msgVertical := by
  unfold getGuidance maxDiffs
  norm_num

/-- The simultaneous three-component fold of `maxDiffs` equals the three
independent max-folds, component by component. -/
theorem maxDiffs_eq_foldMax (P : Point) (H : List Point) :
    maxDiffs P H =
      (H.foldl (fun m h => max m |P.pitch - h.pitch|) 0,
       H.foldl (fun m h => max m |P.yaw - h.yaw|) 0,
       H.foldl (fun m h => max m |P.roll - h.roll|) 0) := by
  have general : ∀ (L : List Point) (a b c : ℚ),
      L.foldl (fun m h =>
          (max m.1 |P.pitch - h.pitch|,
           max m.2.1 |P.yaw - h.yaw|,
           max m.2.2 |P.roll - h.roll|)) (a, b, c)
        = (L.foldl (fun m h => max m |P.pitch - h.pitch|) a,
           L.foldl (fun m h => max m |P.yaw - h.yaw|) b,
           L.foldl (fun m h => max m |P.roll - h.roll|) c) := by
    intro L
    induction L with
    | nil => intro a b c; rfl
    | cons x xs ih => intro a b c; simpa using ih _ _ _
  exact general H 0 0 0

/-- A bound is reached by a running max-fold starting at `a` exactly when it
is at most `a` or reached by some list element. -/
theorem foldl_max_le_iff (f : Point → ℚ) (c : ℚ) :
    ∀ (L : List Point) (a : ℚ),
      c ≤ L.foldl (fun m h => max m (f h)) a ↔ c ≤ a ∨ ∃ h ∈ L, c ≤ f h := by
  intro L
  induction L with
  | nil => intro a; simp
  | cons x xs ih =>
    intro a
    rw [List.foldl_cons, ih]
    simp only [le_max_iff, List.mem_cons]
    constructor
    · rintro (⟨h | h⟩ | ⟨q, hq, hcq⟩)
      · exact Or.inl h
      · exact Or.inr ⟨x, Or.inl rfl, h⟩
      · exact Or.inr ⟨q, Or.inr hq, hcq⟩
    · rintro (h | ⟨q, rfl | hq, hcq⟩)
      · exact Or.inl (Or.inl h)
      · exact Or.inl (Or.inr hcq)
      · exact Or.inr ⟨q, hq, hcq⟩

/-- C9: for every pose `P`, evaluating `P` against an empty history yields
the pitch guidance (move camera/board vertically) and not the acceptance
message, because all three axis maxima are 0, below the threshold 10. -/
theorem C9_empty_history (p : Point) :
    getGuidance p [] = msgVertical ∧ getGuidance p [] ≠ msgOk := by
  refine ⟨getGuidance_nil p, ?_⟩
  rw [getGuidance_nil p]
  exact msgVertical_ne_msgOk

/-- C3 counterexample: the claim demands the accepted pose to differ by at
least 10 degrees per axis from EVERY history entry, but `getGuidance` only
checks the maximal difference per axis.  At `P = (0,0,0,1)` against
`H = [(15,15,15,1), (5,15,15,1)]` the evaluation accepts although the
second history entry is only 5 degrees away in pitch. -/
theorem C3_counterexample :
    getGuidance ⟨0, 0, 0, 1⟩ [⟨15, 15, 15, 1⟩, ⟨5, 15, 15, 1⟩] = msgOk ∧
    ¬ (∀ h ∈ [(⟨15, 15, 15, 1⟩ : Point), ⟨5, 15, 15, 1⟩],
        10 ≤ |(0 : ℚ) - h.pitch| ∧ 10 ≤ |(0 : ℚ) - h.yaw| ∧ 10 ≤ |(0 : ℚ) - h.roll|) := by
  decide

/-- C3 amended: if the evaluation of `P` against `H` accepts, then on each
of the three axes SOME history entry differs from `P` by at least 10
degrees (the per-axis maximum over the history reaches the threshold). -/
theorem C3_amended (P : Point) (H : List Point) (hacc : getGuidance P H = msgOk) :
    (∃ h ∈ H, 10 ≤ |P.pitch - h.pitch|) ∧
    (∃ h ∈ H, 10 ≤ |P.yaw - h.yaw|) ∧
    (∃ h ∈ H, 10 ≤ |P.roll - h.roll|) := by
  unfold getGuidance at hacc
  rw [maxDiffs_eq_foldMax] at hacc
  dsimp only at hacc
  split_ifs at hacc with h1 h2 h3
  · exact absurd hacc msgVertical_ne_msgOk
  · exact absurd hacc msgHorizontal_ne_msgOk
  · exact absurd hacc msgRotate_ne_msgOk
  push_neg at h1 h2 h3
  refine ⟨?_, ?_, ?_⟩
  · rcases (foldl_max_le_iff (fun h => |P.pitch - h.pitch|) 10 H 0).mp h1 with bad | good
    · norm_num at bad
    · exact good
  · rcases (foldl_max_le_iff (fun h => |P.yaw - h.yaw|) 10 H 0).mp h2 with bad | good
    · norm_num at bad
    · exact good
  · rcases (foldl_max_le_iff (fun h => |P.roll - h.roll|) 10 H 0).mp h3 with bad | good
    · norm_num at bad
    · exact good

/-- C3 amended witness: at `P = (15,15,15,1)` against `H = [(0,0,0,1)]` the
evaluation accepts and each axis has a history entry 15 degrees away. -/
theorem C3_amended_witness :
    (∃ h ∈ [(⟨0, 0, 0, 1⟩ : Point)], 10 ≤ |(⟨15, 15, 15, 1⟩ : Point).pitch - h.pitch|) ∧
    (∃ h ∈ [(⟨0, 0, 0, 1⟩ : Point)], 10 ≤ |(⟨15, 15, 15, 1⟩ : Point).yaw - h.yaw|) ∧
    (∃ h ∈ [(⟨0, 0, 0, 1⟩ : Point)], 10 ≤ |(⟨15, 15, 15, 1⟩ : Point).roll - h.roll|) :=
  C3_amended ⟨15, 15, 15, 1⟩ [⟨0, 0, 0, 1⟩] (by decide)

/-- C1 counterexample: in the end-to-end scenario (6x6 pattern, poses
`(0,0,0,1), (15,0,0,1), (15,15,0,1), (15,15,15,1)` one per tick against the
history accumulated on acceptance only) the code does NOT produce the
acceptance sequence `[false, false, false, true]` with guidance
`[vertical, horizontal, rotate, ok]`: since the history grows only on
acceptance and stays empty, no pose is ever accepted. -/
theorem C1_counterexample :
    ¬ (acceptFlags scenarioOutputs = [false, false, false, true] ∧
       scenarioOutputs = [some msgVertical, some msgHorizontal, some msgRotate, some msgOk]) := by
  decide

/-- C1 amended: feeding the four scenario poses one per allowed tick into a
fresh session yields the acceptance sequence `[false, false, false, false]`
and the vertical-movement guidance on every tick, because the accepted-pose
history never grows. -/
theorem C1_scenario :
    acceptFlags scenarioOutputs = [false, false, false, false] ∧
    scenarioOutputs =
      [some msgVertical, some msgVertical, some msgVertical, some msgVertical] := by
  decide

/-- C10: the object-point grid generated for 6 rows, 6 columns and square
size 1 is exactly the 36 points `(j, i, 0)` in row-major order. -/
theorem C10_object_point_grid :
    prepareObjectPoints 6 6 1 =
      [[0, 0, 0], [1, 0, 0], [2, 0, 0], [3, 0, 0], [4, 0, 0], [5, 0, 0],
       [0, 1, 0], [1, 1, 0], [2, 1, 0], [3, 1, 0], [4, 1, 0], [5, 1, 0],
       [0, 2, 0], [1, 2, 0], [2, 2, 0], [3, 2, 0], [4, 2, 0], [5, 2, 0],
       [0, 3, 0], [1, 3, 0], [2, 3, 0], [3, 3, 0], [4, 3, 0], [5, 3, 0],
       [0, 4, 0], [1, 4, 0], [2, 4, 0], [3, 4, 0], [4, 4, 0], [5, 4, 0],
       [0, 5, 0], [1, 5, 0], [2, 5, 0], [3, 5, 0], [4, 5, 0], [5, 5, 0]] := by
  decide

/-- One `Camera.draw` tick changes the number of stored object-point sets
by exactly one when its guidance output is the acceptance message, and
leaves it unchanged otherwise. -/
theorem drawTick_objectPoints_length (objp : List (List ℚ)) (s : CamState)
    (ev : Option (Point × List ℚ)) :
    (drawTick objp s ev).1.objectPoints.length =
      if (drawTick objp s ev).2 = some msgOk then s.objectPoints.length + 1
      else s.objectPoints.length := by
  match ev with
  | none => simp [drawTick]
  | some (angles, corners) =>
    by_cases h : getGuidance angles s.anglesHist = msgOk
    · simp [drawTick, h, acceptSample]
    · simp [drawTick, h]

/-- Over any tick sequence the number of stored object-point sets grows by
exactly the number of ticks whose guidance output was the acceptance
message. -/
theorem runTicks_objectPoints_length (objp : List (List ℚ)) :
    ∀ (evs : List (Option (Point × List ℚ))) (s : CamState),
      (runTicks objp s evs).1.objectPoints.length =
        s.objectPoints.length +
          ((runTicks objp s evs).2.filter (fun o => decide (o = some msgOk))).length := by
  intro evs
  induction evs with
  | nil => intro s; simp [runTicks]
  | cons ev evs ih =>
    intro s
    have htick := drawTick_objectPoints_length objp s ev
    simp only [runTicks]
    rw [ih, List.filter_cons]
    by_cases hp : (drawTick objp s ev).2 = some msgOk
    · rw [if_pos hp] at htick
      simp [hp]
      omega
    · rw [if_neg hp] at htick
      rw [if_neg (by simp [hp] : ¬ decide ((drawTick objp s ev).2 = some msgOk) = true)]
      omega

/-- C7: within a session the sample accumulator never shrinks; after any
tick sequence its length equals its starting length plus the number of
novelty evaluations that accepted (emitted the acceptance message); and a
single tick appends exactly when its evaluation accepted. -/
theorem C7_accumulator_length (objp : List (List ℚ)) (s : CamState)
    (evs : List (Option (Point × List ℚ))) :
    s.objectPoints.length ≤ (runTicks objp s evs).1.objectPoints.length ∧
    (runTicks objp s evs).1.objectPoints.length =
      s.objectPoints.length +
        ((runTicks objp s evs).2.filter (fun o => decide (o = some msgOk))).length ∧
    ∀ ev, (drawTick objp s ev).1.objectPoints.length =
      if (drawTick objp s ev).2 = some msgOk then s.objectPoints.length + 1
      else s.objectPoints.length := by
  refine ⟨?_, runTicks_objectPoints_length objp evs s,
    fun ev => drawTick_objectPoints_length objp s ev⟩
  rw [runTicks_objectPoints_length objp evs s]
  omega

/-- A `Camera.draw` tick from a state with empty accepted history leaves
the state unchanged and emits either no guidance or the vertical hint. -/
theorem drawTick_nil_hist (objp : List (List ℚ)) (s : CamState)
    (ev : Option (Point × List ℚ)) (h : s.anglesHist = []) :
    (drawTick objp s ev).1 = s ∧
      ((drawTick objp s ev).2 = none ∨ (drawTick objp s ev).2 = some msgVertical) := by
  match ev with
  | none => simp [drawTick]
  | some (angles, corners) =>
    have hg : getGuidance angles s.anglesHist = msgVertical := by
      rw [h]; exact getGuidance_nil angles
    have hne : ¬ getGuidance angles s.anglesHist = msgOk := by
      rw [hg]; exact msgVertical_ne_msgOk
    simp [drawTick, hg, msgVertical_ne_msgOk]

/-- Any `Camera.draw` tick sequence from a state with empty accepted
history leaves the state unchanged and never emits the acceptance
message. -/
theorem runTicks_nil_hist (objp : List (List ℚ)) :
    ∀ (evs : List (Option (Point × List ℚ))) (s : CamState), s.anglesHist = [] →
      (runTicks objp s evs).1 = s ∧
        ∀ o ∈ (runTicks objp s evs).2, o = none ∨ o = some msgVertical := by
  intro evs
  induction evs with
  | nil => intro s _; simp [runTicks]
  | cons ev evs ih =>
    intro s h
    have htick := drawTick_nil_hist objp s ev h
    simp only [runTicks, htick.1]
    have hrest := ih s h
    refine ⟨hrest.1, ?_⟩
    intro o ho
    rcases List.mem_cons.mp ho with rfl | hmem
    · exact htick.2
    · exact hrest.2 o hmem

/-- One hook-loop iteration from a state with empty local history keeps
the history empty, keeps `captured`, and either keeps the guidance state or
sets it to the vertical hint. -/
theorem hookStep_nil_hist (objp : List (List ℚ)) (s : HookState) (ev : HookEvent)
    (h : s.anglesHist = []) :
    (hookStep objp s ev).anglesHist = [] ∧
    (hookStep objp s ev).captured = s.captured ∧
    ((hookStep objp s ev).guidance = s.guidance ∨
      (hookStep objp s ev).guidance = some msgVertical) := by
  cases ev with
  | frameNull => exact ⟨h, rfl, Or.inl rfl⟩
  | notFound => exact ⟨h, rfl, Or.inl rfl⟩
  | found angles corners =>
    simp [hookStep, h, getGuidance_nil, msgVertical_ne_msgOk]

/-- Any number of hook-loop iterations from a state with empty local
history keeps the history empty, keeps `captured`, and keeps the guidance
state in {unset, vertical hint}. -/
theorem hookRun_nil_hist (objp : List (List ℚ)) :
    ∀ (evs : List HookEvent) (s : HookState), s.anglesHist = [] →
      (s.guidance = none ∨ s.guidance = some msgVertical) →
      (hookRun objp s evs).anglesHist = [] ∧
      (hookRun objp s evs).captured = s.captured ∧
      ((hookRun objp s evs).guidance = none ∨
        (hookRun objp s evs).guidance = some msgVertical) := by
  intro evs
  induction evs with
  | nil => intro s h hg; exact ⟨h, rfl, hg⟩
  | cons ev evs ih =>
    intro s h hg
    have hstep := hookStep_nil_hist objp s ev h
    simp only [hookRun]
    have hrest := ih (hookStep objp s ev) hstep.1
      (by rcases hstep.2.2 with h' | h'
          · rw [h']; exact hg
          · rw [h']; exact Or.inr rfl)
    refine ⟨hrest.1, ?_, hrest.2.2⟩
    rw [hrest.2.1, hstep.2.1]

/-- C2: from an empty accepted-pose history the session is stuck: over any
tick sequence the camera state never changes and the acceptance message is
never emitted, and over any iteration sequence of the hook loop
`captureWithGuidance n` the local history stays empty, `captured` stays 0
and hence below any requested `n >= 1`, so the loop never completes. -/
theorem C2_bootstrap_deadlock (objp : List (List ℚ)) (evs : List HookEvent)
    (camEvs : List (Option (Point × List ℚ))) (n : Nat) (hn : 1 ≤ n) :
    (hookRun objp initHookState evs).anglesHist = [] ∧
    (hookRun objp initHookState evs).captured = 0 ∧
    (hookRun objp initHookState evs).captured < n ∧
    (hookRun objp initHookState evs).guidance ≠ some msgOk ∧
    (runTicks objp initCamState camEvs).1 = initCamState ∧
    ∀ o ∈ (runTicks objp initCamState camEvs).2, o ≠ some msgOk := by
  have hhook := hookRun_nil_hist objp evs initHookState rfl (Or.inl rfl)
  have hcam := runTicks_nil_hist objp camEvs initCamState rfl
  refine ⟨hhook.1, hhook.2.1, ?_, ?_, hcam.1, ?_⟩
  · rw [hhook.2.1]; exact Nat.lt_of_lt_of_le Nat.zero_lt_one hn
  · rcases hhook.2.2 with h | h
    · rw [h]; exact fun hc => Option.noConfusion hc
    · rw [h]
      intro hc
      exact msgVertical_ne_msgOk (Option.some.inj hc)
  · intro o ho
    rcases hcam.2 o ho with rfl | rfl
    · exact fun hc => Option.noConfusion hc
    · intro hc
      exact msgVertical_ne_msgOk (Option.some.inj hc)

/-- C2 witness: one found tick with pose `(15,0,0,1)` against `n = 1`
leaves `captured` at 0, strictly below 1. -/
theorem C2_bootstrap_deadlock_witness :
    (hookRun [] initHookState [HookEvent.found ⟨15, 0, 0, 1⟩ []]).captured = 0 ∧
    (hookRun [] initHookState [HookEvent.found ⟨15, 0, 0, 1⟩ []]).captured < 1 :=
  ⟨(C2_bootstrap_deadlock [] [HookEvent.found ⟨15, 0, 0, 1⟩ []] [] 1 (by decide)).2.1,
   (C2_bootstrap_deadlock [] [HookEvent.found ⟨15, 0, 0, 1⟩ []] [] 1 (by decide)).2.2.1⟩

/-- C4 counterexample: the sample-accept block of `Camera.draw` contains no
dimension check and no `DimensionMismatch` error exists in the code:
accepting flat image-point data of 35 points (70 numbers) against the
36-point 6x6 object grid succeeds and appends the mismatched sample. -/
theorem C4_counterexample :
    (acceptSample initCamState ⟨0, 0, 0, 1⟩ (prepareObjectPoints 6 6 1)
        (List.replicate 70 (0 : ℚ))).imagePoints.length = 1 ∧
    (acceptSample initCamState ⟨0, 0, 0, 1⟩ (prepareObjectPoints 6 6 1)
        (List.replicate 70 (0 : ℚ))).objectPoints.length = 1 ∧
    (acceptSample initCamState ⟨0, 0, 0, 1⟩ (prepareObjectPoints 6 6 1)
        (List.replicate 70 (0 : ℚ))).captured = 1 ∧
    (prepareObjectPoints 6 6 1).length = 36 ∧
    (List.replicate 70 (0 : ℚ)).length / 2 = 35 := by
  decide

/-- C4 amended: the sample-accept operation performs no dimension
validation: even when the number of image points differs from the number of
object points it appends both lists unchanged and increments the captured
count, rather than failing. -/
theorem C4_no_dimension_check (s : CamState) (angles : Point)
    (objp : List (List ℚ)) (img : List ℚ) (hmis : img.length / 2 ≠ objp.length) :
    (acceptSample s angles objp img).objectPoints = s.objectPoints ++ [objp] ∧
    (acceptSample s angles objp img).imagePoints = s.imagePoints ++ [img] ∧
    (acceptSample s angles objp img).captured = s.captured + 1 :=
  ⟨rfl, rfl, rfl⟩

/-- C4 amended witness: 35 image points (70 flat numbers) against the
36-point 6x6 grid are appended and counted. -/
theorem C4_no_dimension_check_witness :
    (acceptSample initCamState ⟨0, 0, 0, 1⟩ (prepareObjectPoints 6 6 1)
        (List.replicate 70 (0 : ℚ))).captured = initCamState.captured + 1 :=
  (C4_no_dimension_check initCamState ⟨0, 0, 0, 1⟩ (prepareObjectPoints 6 6 1)
    (List.replicate 70 (0 : ℚ)) (by decide)).2.2

/-- The fire times of a trigger run are exactly the timestamps of the
true-returning calls, in order. -/
theorem fireTimes_eq_filter (interval : ℚ) :
    ∀ (ts : List ℚ) (last : ℚ),
      fireTimes interval last ts =
        ((ts.zip (runTrigger interval last ts)).filter (fun p => p.2)).map Prod.fst := by
  intro ts
  induction ts with
  | nil => intro last; rfl
  | cons t ts ih =>
    intro last
    by_cases h : interval ≤ t - last
    · simp [fireTimes, runTrigger, createTriggerStep, h, List.filter_cons, ih]
    · simp [fireTimes, runTrigger, createTriggerStep, h, List.filter_cons, ih]

/-- Prepending the stored reference timestamp, consecutive fire times of a
trigger run are spaced by at least the interval. -/
theorem chain_fireTimes (interval : ℚ) :
    ∀ (ts : List ℚ) (last : ℚ),
      List.Chain' (fun a b => interval ≤ b - a) (last :: fireTimes interval last ts) := by
  intro ts
  induction ts with
  | nil => intro last; simp [fireTimes]
  | cons t ts ih =>
    intro last
    by_cases h : interval ≤ t - last
    · simp only [fireTimes, if_pos h]
      exact List.chain'_cons.mpr ⟨h, ih t⟩
    · simp only [fireTimes, if_neg h]
      exact ih last

/-- C5 counterexample: with fps = 10 (interval 100 ms) and the stored
timestamp starting at 0, calls at 0, 50, 100, 150 ms return
[false, false, true, false], not the claimed [true, false, false, true] —
the call at t = 0 finds 0 ms elapsed since the initial reference 0. -/
theorem C5_counterexample :
    createTriggerRun 10 [0, 50, 100, 150] = [false, false, true, false] ∧
    createTriggerRun 10 [0, 50, 100, 150] ≠ [true, false, false, true] := by
  decide

/-- C5 amended: a call returns true exactly when at least the interval has
elapsed since the stored timestamp, and stores its own timestamp exactly
when it returns true; the timestamps of true-returning calls (the fire
times) are consecutively spaced by at least the interval; and with fps = 10
the calls at 0, 50, 100, 150 ms return [false, false, true, false]. -/
theorem C5_trigger_spacing (interval last : ℚ) (ts : List ℚ) :
    (∀ now : ℚ, ((createTriggerStep interval last now).1 = true ↔ interval ≤ now - last) ∧
      (createTriggerStep interval last now).2 =
        if (createTriggerStep interval last now).1 then now else last) ∧
    fireTimes interval last ts =
      ((ts.zip (runTrigger interval last ts)).filter (fun p => p.2)).map Prod.fst ∧
    List.Chain' (fun a b => interval ≤ b - a) (fireTimes interval last ts) ∧
    createTriggerRun 10 [0, 50, 100, 150] = [false, false, true, false] := by
  refine ⟨?_, fireTimes_eq_filter interval ts last, ?_, by decide⟩
  · intro now
    by_cases h : interval ≤ now - last
    · simp [createTriggerStep, h]
    · simp [createTriggerStep, h]
  · have := chain_fireTimes interval ts last
    exact this.tail

/-- C6 counterexample: the constructor performs `this.fps = config.fps || 10`
with no validation: the non-positive value 0 is silently replaced by the
default 10 and the non-positive value -5 is accepted as the fps — neither
fails. -/
theorem C6_counterexample :
    cameraFps (some 0) = 10 ∧ cameraFps (some (-5)) = -5 := by
  decide

/-- C6 amended: the fps is fixed at construction; an absent or zero
(falsy) configured value yields the default 10, and every nonzero value —
including negative ones — is stored unchanged; construction never fails. -/
theorem C6_fps_default (f : ℚ) (hf : f ≠ 0) :
    cameraFps none = 10 ∧ cameraFps (some 0) = 10 ∧ cameraFps (some f) = f := by
  refine ⟨rfl, by decide, ?_⟩
  simp [cameraFps, hf]

/-- C6 amended witness: the negative fps -5 is stored unchanged. -/
theorem C6_fps_default_witness : cameraFps (some (-5)) = -5 :=
  (C6_fps_default (-5) (by norm_num)).2.2

/-- A revised-draw tick never shrinks the accumulated object-point sets. -/
theorem drawTickV3_length_le (objMat : List (List ℚ)) (s : CamV3State)
    (ev : Option (List ℚ × (Nat × Nat))) :
    s.objpoints.length ≤ (drawTickV3 objMat s ev).1.objpoints.length := by
  match ev with
  | none => exact Nat.le_refl _
  | some (corners, size) =>
    by_cases h : 15 ≤ s.objpoints.length + 1
    · simp [drawTickV3, h]
    · simp [drawTickV3, h]

/-- Once the revised camera holds at least 15 samples, every found tick of
a run invokes the calibration (its recorded output is present). -/
theorem runTicksV3_fires (objMat : List (List ℚ)) :
    ∀ (evs : List (Option (List ℚ × (Nat × Nat)))) (s : CamV3State),
      15 ≤ s.objpoints.length →
      List.Forall₂ (fun (ev : Option (List ℚ × (Nat × Nat))) (out : Option CalibCall) =>
        ev.isSome → out.isSome) evs (runTicksV3 objMat s evs).2 := by
  intro evs
  induction evs with
  | nil => intro s _; exact List.Forall₂.nil
  | cons ev evs ih =>
    intro s h
    simp only [runTicksV3]
    refine List.Forall₂.cons ?_ ?_
    · match ev with
      | none => intro hbad; simp [drawTickV3] at hbad ⊢
      | some (corners, size) =>
        intro _
        have hc : 15 ≤ s.objpoints.length + 1 := Nat.le_succ_of_le h
        simp [drawTickV3, hc]
    · refine ih _ ?_
      exact Nat.le_trans h (drawTickV3_length_le objMat s ev)

/-- C8: on each found tick the revised `Camera.draw` stores the sample and
then, exactly when the accumulated count has reached 15, invokes the
calibration with the full current object-point sets, image-point sets and
the image size; the trigger is not deduplicated, so from any state already
at or past 15 samples every subsequent found tick of a run fires again. -/
theorem C8_calibration_trigger (objMat : List (List ℚ)) (s : CamV3State) :
    (∀ (corners : List ℚ) (size : Nat × Nat),
      (drawTickV3 objMat s (some (corners, size))).1 =
        ⟨s.objpoints ++ [objMat], s.imgpoints ++ [corners]⟩ ∧
      (drawTickV3 objMat s (some (corners, size))).2 =
        if 15 ≤ s.objpoints.length + 1 then
          some ⟨s.objpoints ++ [objMat], s.imgpoints ++ [corners], size⟩
        else none) ∧
    ∀ (evs : List (Option (List ℚ × (Nat × Nat)))), 15 ≤ s.objpoints.length →
      List.Forall₂ (fun (ev : Option (List ℚ × (Nat × Nat))) (out : Option CalibCall) =>
        ev.isSome → out.isSome) evs (runTicksV3 objMat s evs).2 := by
  refine ⟨?_, fun evs h => runTicksV3_fires objMat evs s h⟩
  intro corners size
  by_cases h : 15 ≤ s.objpoints.length + 1
  · simp [drawTickV3, h]
  · simp [drawTickV3, h]

/-- C8 witness: from a state holding 15 samples, a found tick at image size
4 x 3 fires the calibration. -/
theorem C8_calibration_trigger_witness :
    List.Forall₂ (fun (ev : Option (List ℚ × (Nat × Nat))) (out : Option CalibCall) =>
        ev.isSome → out.isSome)
      [some ([], (4, 3))]
      (runTicksV3 []
        ⟨List.replicate 15 [], List.replicate 15 []⟩ [some ([], (4, 3))]).2 :=
  (C8_calibration_trigger [] ⟨List.replicate 15 [], List.replicate 15 []⟩).2
    [some ([], (4, 3))] (by simp)

end CamCalib
